import Mathlib

/-!
Shallow embedding of the generation-pipeline orchestrator of the
infinite-fun browser extension, together with its two image-provider
clients, its prompt generator and the trace sanitizer.

Sources embedded:
  * background.js      — handleUpdateTexts / handleRegenerateImage and the
                         module-level state (isGenerating, lastUpdateTime,
                         lastGeneratedPrompt) plus durable storage.
  * llmHandler.js      — generatePromptFromTexts.
  * apiHandler.js (the version returning structured image results)
                       — getImageFromFal / getImageFromReplicate with their
                         submit/poll protocol.
  * weaveShim.js       — the argument sanitizer inside op().

Network interactions are modelled by oracles: each fetch is represented by
a response value supplied in an environment record, and the routine emits
an explicit event for every observable effect (network submit/poll, badge
update, durable write, message to a tab, setTimeout wait).  Weave tracing
calls are fire-and-forget, touch no pipeline state and are outside the
claims, so they are not given events.
-/

namespace InfiniteFun

deriving instance DecidableEq for Except

/-- Whether the first list is an initial segment of the second. -/
def listIsInit : List Char → List Char → Bool
  | [], _ => true
  | _ :: _, [] => false
  | a :: as, b :: bs => a = b && listIsInit as bs

/-- Whether pat occurs as a contiguous run inside the second list. -/
def listContainsSub (pat : List Char) : List Char → Bool
  | [] => pat.isEmpty
  | c :: rest => listIsInit pat (c :: rest) || listContainsSub pat rest

/-- JS String.prototype.startsWith, on the code-point list. -/
def strStartsWith (s pre : String) : Bool := listIsInit pre.toList s.toList

/-- JS String.prototype.includes (substring containment). -/
def strContains (s pat : String) : Bool := listContainsSub pat.toList s.toList

/-- JS String.prototype.toLowerCase restricted to ASCII, which covers every
key the extension ever passes to the sanitizer. -/
def strToLower (s : String) : String := String.mk (s.toList.map Char.toLower)

/-- JS String.prototype.trim. -/
def jsTrim (s : String) : String :=
  String.mk (((s.toList.dropWhile Char.isWhitespace).reverse.dropWhile
    Char.isWhitespace).reverse)

/-- JS String.prototype.substring(n) for ASCII strings. -/
def jsSubstring (s : String) (n : Nat) : String := String.mk (s.toList.drop n)

/-- One {id, text} element received from the content script. -/
structure TextItem where
  id : String
  text : String
deriving DecidableEq, Repr

/-- The chrome.storage.sync settings read by background.js. -/
structure Settings where
  openaiApiKey : String
  falApiKey : String
  replicateApiKey : String
  imageModel : String
  llmModel : String
deriving DecidableEq, Repr

/-- The module-level mutable state of background.js, together with the
durably stored prompt (chrome.storage.local, field lastGeneratedPrompt). -/
structure PipelineState where
  isGenerating : Bool
  lastUpdateTime : Int
  lastGeneratedPrompt : String
  storedPrompt : String
deriving DecidableEq, Repr

/-- Observable effects of a run.  badge t is chrome.action.setBadgeText,
flagSet b is an assignment to isGenerating, llmCall carries the
previousPrompt argument of the Stage 1 request, storeWrite is the durable
write of lastGeneratedPrompt, netFalSubmit / netFalPoll / netRepSubmit /
netRepPoll are the provider network requests, wait ms is the setTimeout
between polls, sendToTab is the user-visible render message. -/
inductive Ev where
  | badge (t : String)
  | flagSet (b : Bool)
  | llmCall (previousPrompt : String)
  | storeWrite (prompt : String)
  | netFalSubmit (modelPath : String)
  | netFalPoll (attempt : Nat)
  | netRepSubmit (apiUrl : String)
  | netRepPoll (attempt : Nat)
  | wait (ms : Nat)
  | sendToTab (imageUrl prompt : String)
deriving DecidableEq, Repr

/-- Token-usage counters of a chat completion. -/
structure Usage where
  prompt_tokens : Nat
  completion_tokens : Nat
  total_tokens : Nat
deriving DecidableEq, Repr

/-- The part of a successful chat-completion response that
generatePromptFromTexts reads: choices[0].message.content and usage. -/
structure LlmResponse where
  content : String
  usage : Option Usage
deriving DecidableEq, Repr

/-- Result of generatePromptFromTexts: {prompt, model, usage}. -/
structure PromptResult where
  prompt : String
  model : String
  usage : Option Usage
deriving DecidableEq, Repr

/-- llmHandler.js generatePromptFromTexts.  The network outcome is an
oracle: error models both a non-ok HTTP status and a transport failure.
The empty-key check precedes the fetch, so a missing key produces no
llmCall event. -/
def generatePromptFromTexts (texts : List TextItem)
    (apiKey model previousPrompt : String)
    (net : Except String LlmResponse) : List Ev × Except String PromptResult :=
  if apiKey = "" then ([], .error "API Key is missing.")
  else
    match net with
    | .error e => ([Ev.llmCall previousPrompt], .error e)
    | .ok d =>
        ([Ev.llmCall previousPrompt],
         .ok { prompt := jsTrim d.content, model := model, usage := d.usage })

/-- Normalized image result {url, base64?, imageType} returned by the
provider clients. -/
structure ImageResult where
  url : String
  base64 : Option String
  imageType : String
deriving DecidableEq, Repr

/-- One entry of a FAL images array.  An empty base64 string models an
absent or falsy base64 field. -/
structure FalImage where
  url : String
  base64 : String
deriving DecidableEq, Repr

/-- Body of the FAL submit response.  An empty request_id models an absent
or falsy request_id. -/
structure FalInitial where
  images : List FalImage
  request_id : String
deriving DecidableEq, Repr

/-- Body of one FAL status-poll response. -/
structure FalPollData where
  status : String
  images : List FalImage
  error : String
deriving DecidableEq, Repr

/-- Network oracle for the FAL client: the submit response and one status
response per poll attempt.  error models a non-ok HTTP response. -/
structure FalNet where
  submit : Except String FalInitial
  poll : Nat → Except String FalPollData

/-- Builds the FAL {url, base64?, imageType: jpeg} result from one images
entry; base64 is kept only when truthy. -/
def falResultOfImage (img : FalImage) : ImageResult :=
  { url := img.url,
    base64 := if img.base64 = "" then none else some img.base64,
    imageType := "jpeg" }

/-- mkFalModelPath: the modelPath computation at the top of
getImageFromFal.  The source default is fal-ai/z-image/turbo; only model
ids that are truthy and start with fal- override it (the final else branch
of the source is unreachable). -/
def falModelPath (model : String) : String :=
  if model ≠ "" ∧ strStartsWith model "fal-" then
    if model = "fal-z-image-turbo" then "fal-ai/z-image/turbo"
    else jsSubstring model 4
  else "fal-ai/z-image/turbo"

/-- The FAL polling loop: while (attempts < 20), modelled with the number
of remaining attempts as fuel and the attempt index threaded for the
oracle.  Each iteration waits 500 ms and then polls. -/
def falPollLoop (net : FalNet) : Nat → Nat → List Ev × Except String ImageResult
  | 0, _ => ([], .error "FAL Request Timed Out")
  | rem + 1, idx =>
    match net.poll idx with
    | .error msg =>
        ([Ev.wait 500, Ev.netFalPoll idx], .error ("FAL Status Error: " ++ msg))
    | .ok d =>
        if d.status = "COMPLETED" then
          match d.images with
          | [] => ([Ev.wait 500, Ev.netFalPoll idx],
                   .error "No image in completed response")
          | img :: _ => ([Ev.wait 500, Ev.netFalPoll idx],
                         .ok (falResultOfImage img))
        else if d.status = "FAILED" then
          ([Ev.wait 500, Ev.netFalPoll idx],
           .error ("FAL Request Failed: " ++ d.error))
        else
          (Ev.wait 500 :: Ev.netFalPoll idx :: (falPollLoop net rem (idx + 1)).1,
           (falPollLoop net rem (idx + 1)).2)

/-- apiHandler.js getImageFromFal.  The key check precedes the submit
fetch; a nonempty images array in the submit response short-circuits;
otherwise the request_id is required and the client polls up to 20 times. -/
def getImageFromFal (prompt apiKey model : String) (net : FalNet) :
    List Ev × Except String ImageResult :=
  if apiKey = "" then ([], .error "FAL API Key is missing.")
  else
    match net.submit with
    | .error e =>
        ([Ev.netFalSubmit (falModelPath model)], .error ("FAL API Error: " ++ e))
    | .ok d =>
        match d.images with
        | img :: _ => ([Ev.netFalSubmit (falModelPath model)],
                       .ok (falResultOfImage img))
        | [] =>
            if d.request_id = "" then
              ([Ev.netFalSubmit (falModelPath model)],
               .error "FAL Response missing images and request_id")
            else
              (Ev.netFalSubmit (falModelPath model) :: (falPollLoop net 20 0).1,
               (falPollLoop net 20 0).2)

/-- Replicate output field: a bare string or an array of strings. -/
inductive RepOutput where
  | str (s : String)
  | arr (l : List String)
deriving DecidableEq, Repr

/-- JS truthiness of data.output: absent and the empty string are falsy,
every array (even empty) is truthy. -/
def repOutputTruthy : Option RepOutput → Bool
  | none => false
  | some (.str s) => decide (s ≠ "")
  | some (.arr _) => true

/-- Array.isArray(output) ? output[0] : output.  none models the undefined
or null url obtained from an empty array or an absent output. -/
def repUrlOf : Option RepOutput → Option String
  | none => none
  | some (.str s) => some s
  | some (.arr []) => none
  | some (.arr (h :: _)) => some h

/-- Character class \w of the data-URI regex. -/
def isWordChar (c : Char) : Bool := c.isAlphanum || c = '_'

/-- Characters matched by the regex dot (everything except the JS line
terminators). -/
def isJsDotChar (c : Char) : Bool :=
  !(c = '\n' || c = '\r' || c = '\u2028' || c = '\u2029')

/-- The regex match url.match of data colon image slash (w+) semicolon
base64 comma (.+) anchored at both ends: returns the mime type and the
payload when the url is such a data URI. -/
def parseDataUri (s : String) : Option (String × String) :=
  let l := s.toList
  if listIsInit "data:image/".toList l then
    let rest := l.drop 11
    let mime := rest.takeWhile isWordChar
    let rest2 := rest.drop mime.length
    if mime ≠ [] ∧ listIsInit ";base64,".toList rest2 then
      let payload := rest2.drop 8
      if payload ≠ [] ∧ payload.all isJsDotChar then
        some (String.mk mime, String.mk payload)
      else none
    else none
  else none

/-- The extractResult helper of getImageFromReplicate.  An undefined or
null url (empty output array, absent output reached from the poll path)
makes url.includes throw, modelled as an error.  A data-image URI wins;
otherwise the URL extension heuristic applies: png is set first, then webp
overrides it, default jpeg. -/
def extractResult (output : Option RepOutput) : Except String ImageResult :=
  match repUrlOf output with
  | none => .error "TypeError: url.includes is not a function"
  | some url =>
    match parseDataUri url with
    | some (mime, payload) =>
        .ok { url := url, base64 := some payload, imageType := mime }
    | none =>
        let t1 := if strContains url ".png" then "png" else "jpeg"
        let t2 := if strContains url ".webp" then "webp" else t1
        .ok { url := url, base64 := none, imageType := t2 }

/-- Body of a Replicate prediction response.  An empty urlsGet models an
absent data.urls.get. -/
structure RepData where
  status : String
  output : Option RepOutput
  urlsGet : String
  error : String
deriving DecidableEq, Repr

/-- Network oracle for the Replicate client. -/
structure RepNet where
  submit : Except String RepData
  poll : Nat → Except String RepData

/-- The Replicate polling loop: while (attempts < 40).  The poll path
calls extractResult without a truthiness check on output. -/
def repPollLoop (net : RepNet) : Nat → Nat → List Ev × Except String ImageResult
  | 0, _ => ([], .error "Replicate Request Timed Out")
  | rem + 1, idx =>
    match net.poll idx with
    | .error msg =>
        ([Ev.wait 500, Ev.netRepPoll idx],
         .error ("Replicate Status Error: " ++ msg))
    | .ok d =>
        if d.status = "succeeded" then
          ([Ev.wait 500, Ev.netRepPoll idx], extractResult d.output)
        else if d.status = "failed" then
          ([Ev.wait 500, Ev.netRepPoll idx],
           .error ("Replicate Request Failed: " ++ d.error))
        else if d.status = "canceled" then
          ([Ev.wait 500, Ev.netRepPoll idx], .error "Replicate Request Canceled")
        else
          (Ev.wait 500 :: Ev.netRepPoll idx :: (repPollLoop net rem (idx + 1)).1,
           (repPollLoop net rem (idx + 1)).2)

/-- Submit-then-poll of getImageFromReplicate once the model was resolved
to an apiUrl (the version and input payload differences between the two
models do not affect any observable modelled here). -/
def repRun (apiUrl : String) (net : RepNet) : List Ev × Except String ImageResult :=
  match net.submit with
  | .error e =>
      ([Ev.netRepSubmit apiUrl], .error ("Replicate API Error: " ++ e))
  | .ok d =>
      if d.status = "succeeded" ∧ repOutputTruthy d.output then
        ([Ev.netRepSubmit apiUrl], extractResult d.output)
      else
        if d.urlsGet = "" then
          ([Ev.netRepSubmit apiUrl], .error "Replicate Response missing get url")
        else
          (Ev.netRepSubmit apiUrl :: (repPollLoop net 40 0).1,
           (repPollLoop net 40 0).2)

/-- apiHandler.js getImageFromReplicate.  The key check comes first, then
the model is resolved; an unrecognized model throws before any fetch. -/
def getImageFromReplicate (prompt apiKey model : String) (net : RepNet) :
    List Ev × Except String ImageResult :=
  if apiKey = "" then ([], .error "Replicate API Key is missing.")
  else if model = "replicate-z-image-turbo" then
    repRun "https://api.replicate.com/v1/predictions" net
  else if model = "replicate-pruna-p-image" then
    repRun "https://api.replicate.com/v1/models/prunaai/p-image/predictions" net
  else
    ([], .error ("Unknown Replicate model: " ++ model))

/-- Environment of one orchestrator run: the clock reading, the settings
snapshot, the trigger payload, the resolved destination tab and the
network oracles. -/
structure Env where
  now : Int
  settings : Settings
  texts : List TextItem
  tabId : Option Nat
  llmNet : Except String LlmResponse
  falNet : FalNet
  repNet : RepNet

/-- The Stage 2 dispatch shared by both entry points of background.js:
model ids starting with replicate go to the Replicate client, everything
else goes to the FAL client. -/
def stage2 (prompt : String) (st : Settings) (env : Env) :
    List Ev × Except String ImageResult :=
  if strStartsWith st.imageModel "replicate" then
    getImageFromReplicate prompt st.replicateApiKey st.imageModel env.repNet
  else
    getImageFromFal prompt st.falApiKey st.imageModel env.falNet

/-- background.js handleUpdateTexts.  Guards in source order: debounce
against lastUpdateTime, then the isGenerating lock.  On acceptance the
flag is set and lastUpdateTime updated; missing credentials produce the
KEY badge and an early return; Stage 1 errors and Stage 2 errors reach
the catch block (ERR badge); the finally block clears the flag on every
path that set it.  initWeave and the fire-and-forget trace block touch no
pipeline state and are not modelled. -/
def handleUpdateTexts (env : Env) (s : PipelineState) : PipelineState × List Ev :=
  if env.now - s.lastUpdateTime < 2000 then (s, [])
  else if s.isGenerating then (s, [])
  else
    if env.settings.openaiApiKey = "" then
      ({ s with isGenerating := false, lastUpdateTime := env.now },
       [Ev.flagSet true, Ev.badge "...", Ev.badge "KEY"])
    else if strStartsWith env.settings.imageModel "fal" ∧
        env.settings.falApiKey = "" then
      ({ s with isGenerating := false, lastUpdateTime := env.now },
       [Ev.flagSet true, Ev.badge "...", Ev.badge "KEY"])
    else if strStartsWith env.settings.imageModel "replicate" ∧
        env.settings.replicateApiKey = "" then
      ({ s with isGenerating := false, lastUpdateTime := env.now },
       [Ev.flagSet true, Ev.badge "...", Ev.badge "KEY"])
    else
      match generatePromptFromTexts env.texts env.settings.openaiApiKey
          env.settings.llmModel s.lastGeneratedPrompt env.llmNet with
      | (evL, .error _) =>
          ({ s with isGenerating := false, lastUpdateTime := env.now },
           [Ev.flagSet true, Ev.badge "..."] ++ evL ++ [Ev.badge "ERR"])
      | (evL, .ok llm) =>
          match stage2 llm.prompt env.settings env with
          | (evI, .error _) =>
              ({ s with
                  isGenerating := false
                  lastUpdateTime := env.now
                  lastGeneratedPrompt := llm.prompt
                  storedPrompt := llm.prompt },
               [Ev.flagSet true, Ev.badge "..."] ++ evL ++
                 [Ev.storeWrite llm.prompt] ++ evI ++ [Ev.badge "ERR"])
          | (evI, .ok img) =>
              ({ s with
                  isGenerating := false
                  lastUpdateTime := env.now
                  lastGeneratedPrompt := llm.prompt
                  storedPrompt := llm.prompt },
               [Ev.flagSet true, Ev.badge "..."] ++ evL ++
                 [Ev.storeWrite llm.prompt] ++ evI ++
                 (match env.tabId with
                  | some _ => [Ev.sendToTab img.url llm.prompt]
                  | none => []) ++ [Ev.badge ""])

/-- First step of handleRegenerateImage: the prompt is loaded from
durable storage when the in-memory copy is empty (and the stored value is
truthy). -/
def regenLoadPrompt (s : PipelineState) : PipelineState :=
  if s.lastGeneratedPrompt = "" ∧ s.storedPrompt ≠ "" then
    { s with lastGeneratedPrompt := s.storedPrompt }
  else s

/-- background.js handleRegenerateImage.  The prompt is loaded from
durable storage when the in-memory copy is empty; an empty prompt and a
held lock are silent no-ops; there is no credential guard before Stage 2;
the finally block clears the flag. -/
def handleRegenerateImage (env : Env) (s : PipelineState) :
    PipelineState × List Ev :=
  if (regenLoadPrompt s).lastGeneratedPrompt = "" then (regenLoadPrompt s, [])
  else if (regenLoadPrompt s).isGenerating then (regenLoadPrompt s, [])
  else
    match stage2 (regenLoadPrompt s).lastGeneratedPrompt env.settings env with
    | (evI, .error _) =>
        ({ regenLoadPrompt s with isGenerating := false },
         [Ev.flagSet true, Ev.badge "..."] ++ evI ++ [Ev.badge "ERR"])
    | (evI, .ok img) =>
        ({ regenLoadPrompt s with isGenerating := false },
         [Ev.flagSet true, Ev.badge "..."] ++ evI ++
           (match env.tabId with
            | some _ =>
                [Ev.sendToTab img.url (regenLoadPrompt s).lastGeneratedPrompt]
            | none => []) ++ [Ev.badge ""])

/-- JSON-like value of a sanitizer argument. -/
inductive JsVal where
  | str (s : String)
  | num (n : Int)
  | bool (b : Bool)
  | null
  | obj (fields : List (String × JsVal))
  | arr (elems : List JsVal)

/-- The key filter of the sanitizer in weaveShim.js op: the lowercased key
must contain one of apikey, api_key, secret, token, password. -/
def sensitiveKey (k : String) : Bool :=
  strContains (strToLower k) "apikey" || strContains (strToLower k) "api_key" ||
  strContains (strToLower k) "secret" || strContains (strToLower k) "token" ||
  strContains (strToLower k) "password"

/-- One pass over the top-level keys of the shallow copy, replacing
sensitive values with the redaction marker. -/
def redactFields (fields : List (String × JsVal)) : List (String × JsVal) :=
  fields.map fun kv =>
    if sensitiveKey kv.1 then (kv.1, JsVal.str "[REDACTED]") else kv

/-- Spreading an array into an object: the own enumerable properties are
the index keys (length is not enumerable). -/
def arrFields (elems : List JsVal) : List (String × JsVal) :=
  elems.enum.map fun p => (Nat.repr p.1, p.2)

/-- The per-argument sanitization of weaveShim.js op: objects (arrays
included, since typeof is object) are shallow-copied and their top-level
keys filtered; null and primitives pass through unchanged. -/
def sanitizeArg : JsVal → JsVal
  | .obj fields => .obj (redactFields fields)
  | .arr elems => .obj (redactFields (arrFields elems))
  | v => v

/-- Top-level fields of an object value. -/
def fieldsOf : JsVal → List (String × JsVal)
  | .obj fields => fields
  | _ => []

/-- Event classifiers used by the claims. -/
def isFalEv : Ev → Bool
  | .netFalSubmit _ => true
  | .netFalPoll _ => true
  | _ => false

def isRepEv : Ev → Bool
  | .netRepSubmit _ => true
  | .netRepPoll _ => true
  | _ => false

def isImageNetEv (e : Ev) : Bool := isFalEv e || isRepEv e

def isNetEv : Ev → Bool
  | .llmCall _ => true
  | e => isImageNetEv e

def isFalPollEv : Ev → Bool
  | .netFalPoll _ => true
  | _ => false

def isRepPollEv : Ev → Bool
  | .netRepPoll _ => true
  | _ => false

def isWait500 : Ev → Bool
  | .wait ms => ms = 500
  | _ => false

/-- Events of a run of the polling loop whose status oracle never reports
a terminal state: one wait and one poll per attempt. -/
def pendingEvs (pe : Nat → Ev) : Nat → Nat → List Ev
  | 0, _ => []
  | rem + 1, idx => Ev.wait 500 :: pe idx :: pendingEvs pe rem (idx + 1)

/-- One trigger delivered to handleUpdateTexts: its Date.now reading and
whether a generation is in flight at guard-check time. -/
structure Trig where
  now : Int
  busy : Bool
deriving DecidableEq, Repr

/-- The acceptance predicate of the two guards of handleUpdateTexts. -/
def acceptStep (last : Int) (t : Trig) : Bool :=
  !(decide (t.now - last < 2000)) && !t.busy

/-- Acceptance flags of a trigger sequence, threading lastUpdateTime,
which only accepted triggers update. -/
def runTrigs (last : Int) : List Trig → List Bool
  | [] => []
  | t :: ts =>
      acceptStep last t :: runTrigs (if acceptStep last t then t.now else last) ts

/-- Final lastUpdateTime after a trigger sequence. -/
def runLast (last : Int) : List Trig → Int
  | [] => last
  | t :: ts => runLast (if acceptStep last t then t.now else last) ts

/-! Facts about the polling loops. -/

theorem falPollLoop_pending (net : FalNet)
    (hp : ∀ n, ∃ d, net.poll n = .ok d ∧ d.status ≠ "COMPLETED" ∧
      d.status ≠ "FAILED") :
    ∀ rem idx, falPollLoop net rem idx =
      (pendingEvs Ev.netFalPoll rem idx, .error "FAL Request Timed Out") := by
  intro rem
  induction rem with
  | zero => intro idx; rfl
  | succ r ih =>
      intro idx
      obtain ⟨d, hd, h1, h2⟩ := hp idx
      simp [falPollLoop, hd, h1, h2, ih, pendingEvs]

theorem repPollLoop_pending (net : RepNet)
    (hp : ∀ n, ∃ d, net.poll n = .ok d ∧ d.status ≠ "succeeded" ∧
      d.status ≠ "failed" ∧ d.status ≠ "canceled") :
    ∀ rem idx, repPollLoop net rem idx =
      (pendingEvs Ev.netRepPoll rem idx, .error "Replicate Request Timed Out") := by
  intro rem
  induction rem with
  | zero => intro idx; rfl
  | succ r ih =>
      intro idx
      obtain ⟨d, hd, h1, h2, h3⟩ := hp idx
      simp [repPollLoop, hd, h1, h2, h3, ih, pendingEvs]

theorem pendingEvs_countP (pe : Nat → Ev) (p : Ev → Bool)
    (hpe : ∀ i, p (pe i) = true) (hw : p (Ev.wait 500) = false) :
    ∀ rem idx, (pendingEvs pe rem idx).countP p = rem := by
  intro rem
  induction rem with
  | zero => intro idx; rfl
  | succ r ih =>
      intro idx
      simp [pendingEvs, List.countP_cons, hpe, hw, ih]

theorem pendingEvs_countP_wait (pe : Nat → Ev)
    (hpe : ∀ i, isWait500 (pe i) = false) :
    ∀ rem idx, (pendingEvs pe rem idx).countP isWait500 = rem := by
  have hw : isWait500 (Ev.wait 500) = true := rfl
  intro rem
  induction rem with
  | zero => intro idx; rfl
  | succ r ih =>
      intro idx
      simp [pendingEvs, List.countP_cons, hpe, ih, hw]

/-- C5: a provider client whose status endpoint always reports a pending
(non-terminal) status polls on a fixed 500 ms interval and times out after
exactly its attempt ceiling: 20 poll attempts for the FAL client and 40
for the Replicate client, never more, never fewer. -/
theorem poll_attempt_ceiling :
    (∀ (prompt apiKey model : String) (net : FalNet) (fi : FalInitial),
      apiKey ≠ "" → net.submit = .ok fi → fi.images = [] → fi.request_id ≠ "" →
      (∀ n, ∃ d, net.poll n = .ok d ∧ d.status ≠ "COMPLETED" ∧
        d.status ≠ "FAILED") →
      (getImageFromFal prompt apiKey model net).2 =
          .error "FAL Request Timed Out" ∧
        ((getImageFromFal prompt apiKey model net).1.countP isFalPollEv) = 20 ∧
        ((getImageFromFal prompt apiKey model net).1.countP isWait500) = 20) ∧
    (∀ (prompt apiKey model : String) (net : RepNet) (rd : RepData),
      apiKey ≠ "" →
      (model = "replicate-z-image-turbo" ∨ model = "replicate-pruna-p-image") →
      net.submit = .ok rd →
      ¬(rd.status = "succeeded" ∧ repOutputTruthy rd.output = true) →
      rd.urlsGet ≠ "" →
      (∀ n, ∃ d, net.poll n = .ok d ∧ d.status ≠ "succeeded" ∧
        d.status ≠ "failed" ∧ d.status ≠ "canceled") →
      (getImageFromReplicate prompt apiKey model net).2 =
          .error "Replicate Request Timed Out" ∧
        ((getImageFromReplicate prompt apiKey model net).1.countP isRepPollEv)
          = 40 ∧
        ((getImageFromReplicate prompt apiKey model net).1.countP isWait500)
          = 40) := by
  constructor
  · intro prompt apiKey model net fi hk hs hi hr hp
    have hloop := falPollLoop_pending net hp 20 0
    have hc1 := pendingEvs_countP Ev.netFalPoll isFalPollEv
      (fun i => rfl) rfl 20 0
    have hc2 := pendingEvs_countP_wait Ev.netFalPoll (fun i => rfl) 20 0
    simp [getImageFromFal, hk, hs, hi, hr, hloop, List.countP_cons, hc1, hc2,
      isFalPollEv, isWait500]
  · intro prompt apiKey model net rd hk hm hs hns hu hp
    have hloop := repPollLoop_pending net hp 40 0
    have hc1 := pendingEvs_countP Ev.netRepPoll isRepPollEv
      (fun i => rfl) rfl 40 0
    have hc2 := pendingEvs_countP_wait Ev.netRepPoll (fun i => rfl) 40 0
    rcases hm with rfl | rfl <;>
      simp [getImageFromReplicate, repRun, hk, hs, hns, hu, hloop,
        List.countP_cons, hc1, hc2, isRepPollEv, isWait500]

/-- Environments used by the closed witness below: the FAL submit response
enters the poll path and every status poll reports an in-progress state. -/
def pendingFalNet : FalNet :=
  { submit := .ok { images := [], request_id := "req-1" },
    poll := fun _ => .ok { status := "IN_PROGRESS", images := [], error := "" } }

def pendingRepNet : RepNet :=
  { submit := .ok { status := "starting", output := none, urlsGet := "g", error := "" }
    poll := fun _ =>
      .ok { status := "processing", output := none, urlsGet := "g", error := "" } }

/-- Witness for poll_attempt_ceiling at concrete always-pending oracles. -/
theorem poll_attempt_ceiling_witness :
    ((getImageFromFal "p" "k" "fal-z-image-turbo" pendingFalNet).2 =
        .error "FAL Request Timed Out" ∧
      ((getImageFromFal "p" "k" "fal-z-image-turbo" pendingFalNet).1.countP
        isFalPollEv) = 20) ∧
    ((getImageFromReplicate "p" "k" "replicate-z-image-turbo" pendingRepNet).2 =
        .error "Replicate Request Timed Out" ∧
      ((getImageFromReplicate "p" "k" "replicate-z-image-turbo"
        pendingRepNet).1.countP isRepPollEv) = 40) := by
  have h1 := poll_attempt_ceiling.1 "p" "k" "fal-z-image-turbo" pendingFalNet
    { images := [], request_id := "req-1" } (by decide) (by rfl) (by rfl)
    (by decide)
    (fun n => ⟨{ status := "IN_PROGRESS", images := [], error := "" },
      by exact ⟨rfl, by decide, by decide⟩⟩)
  have h2 := poll_attempt_ceiling.2 "p" "k" "replicate-z-image-turbo"
    pendingRepNet
    { status := "starting", output := none, urlsGet := "g", error := "" }
    (by decide) (Or.inl rfl) (by rfl) (by decide) (by decide)
    (fun n =>
      ⟨{ status := "processing", output := none, urlsGet := "g", error := "" },
        by exact ⟨rfl, by decide, by decide, by decide⟩⟩)
  exact ⟨⟨h1.1, h1.2.1⟩, ⟨h2.1, h2.2.1⟩⟩

/-! Event classification of the provider clients: each client touches only
its own provider's endpoints. -/

theorem falPollLoop_no_rep (net : FalNet) :
    ∀ rem idx e, e ∈ (falPollLoop net rem idx).1 → isRepEv e = false := by
  intro rem
  induction rem with
  | zero => intro idx e he; simp [falPollLoop] at he
  | succ r ih =>
      intro idx e he
      rw [falPollLoop] at he
      split at he
      · simp at he
        rcases he with rfl | rfl <;> rfl
      · split at he
        · split at he
          · simp at he
            rcases he with rfl | rfl <;> rfl
          · simp at he
            rcases he with rfl | rfl <;> rfl
        · split at he
          · simp at he
            rcases he with rfl | rfl <;> rfl
          · simp at he
            rcases he with rfl | rfl | hmem
            · rfl
            · rfl
            · exact ih (idx + 1) e hmem

theorem getImageFromFal_no_rep (prompt apiKey model : String) (net : FalNet) :
    ∀ e ∈ (getImageFromFal prompt apiKey model net).1, isRepEv e = false := by
  intro e he
  rw [getImageFromFal] at he
  split at he
  · simp at he
  · split at he
    · simp at he
      rw [he]; rfl
    · split at he
      · simp at he
        rw [he]; rfl
      · split at he
        · simp at he
          rw [he]; rfl
        · simp at he
          rcases he with rfl | hmem
          · rfl
          · exact falPollLoop_no_rep net 20 0 e hmem

theorem repPollLoop_no_fal (net : RepNet) :
    ∀ rem idx e, e ∈ (repPollLoop net rem idx).1 → isFalEv e = false := by
  intro rem
  induction rem with
  | zero => intro idx e he; simp [repPollLoop] at he
  | succ r ih =>
      intro idx e he
      rw [repPollLoop] at he
      split at he
      · simp at he
        rcases he with rfl | rfl <;> rfl
      · split at he
        · simp at he
          rcases he with rfl | rfl <;> rfl
        · split at he
          · simp at he
            rcases he with rfl | rfl <;> rfl
          · split at he
            · simp at he
              rcases he with rfl | rfl <;> rfl
            · simp at he
              rcases he with rfl | rfl | hmem
              · rfl
              · rfl
              · exact ih (idx + 1) e hmem

theorem repRun_no_fal (apiUrl : String) (net : RepNet) :
    ∀ e ∈ (repRun apiUrl net).1, isFalEv e = false := by
  intro e he
  rw [repRun] at he
  split at he
  · simp at he
    rw [he]; rfl
  · split at he
    · simp at he
      rw [he]; rfl
    · split at he
      · simp at he
        rw [he]; rfl
      · simp at he
        rcases he with rfl | hmem
        · rfl
        · exact repPollLoop_no_fal net 40 0 e hmem

theorem getImageFromReplicate_no_fal (prompt apiKey model : String)
    (net : RepNet) :
    ∀ e ∈ (getImageFromReplicate prompt apiKey model net).1, isFalEv e = false := by
  intro e he
  rw [getImageFromReplicate] at he
  split at he
  · simp at he
  · split at he
    · exact repRun_no_fal _ net e he
    · split at he
      · exact repRun_no_fal _ net e he
      · simp at he

/-- Every event emitted by generatePromptFromTexts is the Stage 1 network
call carrying the previousPrompt argument. -/
theorem generatePromptFromTexts_events (texts : List TextItem)
    (apiKey model prev : String) (net : Except String LlmResponse) :
    ∀ e ∈ (generatePromptFromTexts texts apiKey model prev net).1,
      e = Ev.llmCall prev := by
  intro e he
  rw [generatePromptFromTexts.eq_def] at he
  split at he
  · simp at he
  · split at he <;> simp at he <;> exact he

/-- Master classification of the events of handleUpdateTexts: any Boolean
predicate that rejects the core events and the events of every stage2 run
rejects the whole log. -/
theorem handleUpdateTexts_events (env : Env) (s : PipelineState) (p : Ev → Bool)
    (hbadge : ∀ q, p (Ev.badge q) = false)
    (hflag : ∀ b, p (Ev.flagSet b) = false)
    (hllm : ∀ q, p (Ev.llmCall q) = false)
    (hstore : ∀ q, p (Ev.storeWrite q) = false)
    (hsend : ∀ u q, p (Ev.sendToTab u q) = false)
    (hstage : ∀ q, ∀ e ∈ (stage2 q env.settings env).1, p e = false) :
    ∀ e ∈ (handleUpdateTexts env s).2, p e = false := by
  intro e he
  rw [handleUpdateTexts] at he
  split at he
  · simp at he
  · split at he
    · simp at he
    · split at he
      · simp at he
        rcases he with rfl | rfl | rfl
        · exact hflag true
        · exact hbadge "..."
        · exact hbadge "KEY"
      · split at he
        · simp at he
          rcases he with rfl | rfl | rfl
          · exact hflag true
          · exact hbadge "..."
          · exact hbadge "KEY"
        · split at he
          · simp at he
            rcases he with rfl | rfl | rfl
            · exact hflag true
            · exact hbadge "..."
            · exact hbadge "KEY"
          · split at he
            · rename_i evL err heq
              simp at he
              rcases he with rfl | rfl | hL | rfl
              · exact hflag true
              · exact hbadge "..."
              · have h1 : e ∈ (generatePromptFromTexts env.texts
                    env.settings.openaiApiKey env.settings.llmModel
                    s.lastGeneratedPrompt env.llmNet).1 := by
                  rw [heq]; exact hL
                have h2 := generatePromptFromTexts_events env.texts
                  env.settings.openaiApiKey env.settings.llmModel
                  s.lastGeneratedPrompt env.llmNet e h1
                rw [h2]; exact hllm _
              · exact hbadge "ERR"
            · rename_i evL llm heq
              split at he
              · rename_i evI err heq2
                simp at he
                rcases he with rfl | rfl | hL | rfl | hI | rfl
                · exact hflag true
                · exact hbadge "..."
                · have h1 : e ∈ (generatePromptFromTexts env.texts
                      env.settings.openaiApiKey env.settings.llmModel
                      s.lastGeneratedPrompt env.llmNet).1 := by
                    rw [heq]; exact hL
                  have h2 := generatePromptFromTexts_events env.texts
                    env.settings.openaiApiKey env.settings.llmModel
                    s.lastGeneratedPrompt env.llmNet e h1
                  rw [h2]; exact hllm _
                · exact hstore _
                · have h1 : e ∈ (stage2 llm.prompt env.settings env).1 := by
                    rw [heq2]; exact hI
                  exact hstage llm.prompt e h1
                · exact hbadge "ERR"
              · rename_i evI img heq2
                rcases htab : env.tabId with _ | tb <;> rw [htab] at he <;>
                  simp at he
                · rcases he with rfl | rfl | hL | rfl | hI | rfl
                  · exact hflag true
                  · exact hbadge "..."
                  · have h1 : e ∈ (generatePromptFromTexts env.texts
                        env.settings.openaiApiKey env.settings.llmModel
                        s.lastGeneratedPrompt env.llmNet).1 := by
                      rw [heq]; exact hL
                    have h2 := generatePromptFromTexts_events env.texts
                      env.settings.openaiApiKey env.settings.llmModel
                      s.lastGeneratedPrompt env.llmNet e h1
                    rw [h2]; exact hllm _
                  · exact hstore _
                  · have h1 : e ∈ (stage2 llm.prompt env.settings env).1 := by
                      rw [heq2]; exact hI
                    exact hstage llm.prompt e h1
                  · exact hbadge ""
                · rcases he with rfl | rfl | hL | rfl | hI | rfl | rfl
                  · exact hflag true
                  · exact hbadge "..."
                  · have h1 : e ∈ (generatePromptFromTexts env.texts
                        env.settings.openaiApiKey env.settings.llmModel
                        s.lastGeneratedPrompt env.llmNet).1 := by
                      rw [heq]; exact hL
                    have h2 := generatePromptFromTexts_events env.texts
                      env.settings.openaiApiKey env.settings.llmModel
                      s.lastGeneratedPrompt env.llmNet e h1
                    rw [h2]; exact hllm _
                  · exact hstore _
                  · have h1 : e ∈ (stage2 llm.prompt env.settings env).1 := by
                      rw [heq2]; exact hI
                    exact hstage llm.prompt e h1
                  · exact hsend _ _
                  · exact hbadge ""

/-- Master classification of the events of handleRegenerateImage. -/
theorem handleRegenerateImage_events (env : Env) (s : PipelineState)
    (p : Ev → Bool)
    (hbadge : ∀ q, p (Ev.badge q) = false)
    (hflag : ∀ b, p (Ev.flagSet b) = false)
    (hsend : ∀ u q, p (Ev.sendToTab u q) = false)
    (hstage : ∀ q, ∀ e ∈ (stage2 q env.settings env).1, p e = false) :
    ∀ e ∈ (handleRegenerateImage env s).2, p e = false := by
  intro e he
  rw [handleRegenerateImage] at he
  split at he
  · simp at he
  · split at he
    · simp at he
    · split at he
      · rename_i evI err heq2
        simp at he
        rcases he with rfl | rfl | hI | rfl
        · exact hflag true
        · exact hbadge "..."
        · have h1 : e ∈ (stage2 (regenLoadPrompt s).lastGeneratedPrompt
              env.settings env).1 := by
            rw [heq2]; exact hI
          exact hstage _ e h1
        · exact hbadge "ERR"
      · rename_i evI img heq2
        rcases htab : env.tabId with _ | tb <;> rw [htab] at he <;> simp at he
        · rcases he with rfl | rfl | hI | rfl
          · exact hflag true
          · exact hbadge "..."
          · have h1 : e ∈ (stage2 (regenLoadPrompt s).lastGeneratedPrompt
                env.settings env).1 := by
              rw [heq2]; exact hI
            exact hstage _ e h1
          · exact hbadge ""
        · rcases he with rfl | rfl | hI | rfl | rfl
          · exact hflag true
          · exact hbadge "..."
          · have h1 : e ∈ (stage2 (regenLoadPrompt s).lastGeneratedPrompt
                env.settings env).1 := by
              rw [heq2]; exact hI
            exact hstage _ e h1
          · exact hsend _ _
          · exact hbadge ""

/-- A model identifier starting with fal cannot also start with
replicate. -/
theorem startsWith_fal_not_replicate (m : String)
    (h : strStartsWith m "fal" = true) :
    strStartsWith m "replicate" = false := by
  unfold strStartsWith at h ⊢
  cases hm : m.toList with
  | nil => rw [hm] at h; simp [listIsInit] at h
  | cons c rest =>
      rw [hm] at h
      simp only [listIsInit, Bool.and_eq_true, decide_eq_true_eq] at h
      obtain ⟨rfl, -⟩ := h
      simp [listIsInit]

/-- C6: replicate-prefixed image model identifiers route Stage 2 only to
the Replicate client and fal-prefixed identifiers only to the FAL client,
in both entry points; a replicate-prefixed identifier that matches neither
supported model makes the Replicate client fail with an explicit unknown
model error before any network call. -/
theorem provider_routing :
    (∀ (env : Env) (s : PipelineState),
      strStartsWith env.settings.imageModel "replicate" = true →
      (∀ e ∈ (handleUpdateTexts env s).2, isFalEv e = false) ∧
      (∀ e ∈ (handleRegenerateImage env s).2, isFalEv e = false)) ∧
    (∀ (env : Env) (s : PipelineState),
      strStartsWith env.settings.imageModel "fal" = true →
      (∀ e ∈ (handleUpdateTexts env s).2, isRepEv e = false) ∧
      (∀ e ∈ (handleRegenerateImage env s).2, isRepEv e = false)) ∧
    (∀ (prompt apiKey model : String) (net : RepNet),
      apiKey ≠ "" →
      model ≠ "replicate-z-image-turbo" → model ≠ "replicate-pruna-p-image" →
      getImageFromReplicate prompt apiKey model net =
        ([], .error ("Unknown Replicate model: " ++ model))) := by
  refine ⟨?_, ?_, ?_⟩
  · intro env s h
    have hstage : ∀ q, ∀ e ∈ (stage2 q env.settings env).1, isFalEv e = false := by
      intro q e he
      rw [stage2, if_pos h] at he
      exact getImageFromReplicate_no_fal _ _ _ _ e he
    exact ⟨handleUpdateTexts_events env s isFalEv (fun q => rfl) (fun b => rfl)
        (fun q => rfl) (fun q => rfl) (fun u q => rfl) hstage,
      handleRegenerateImage_events env s isFalEv (fun q => rfl) (fun b => rfl)
        (fun u q => rfl) hstage⟩
  · intro env s h
    have hnr := startsWith_fal_not_replicate env.settings.imageModel h
    have hstage : ∀ q, ∀ e ∈ (stage2 q env.settings env).1, isRepEv e = false := by
      intro q e he
      rw [stage2, if_neg (by simp [hnr])] at he
      exact getImageFromFal_no_rep _ _ _ _ e he
    exact ⟨handleUpdateTexts_events env s isRepEv (fun q => rfl) (fun b => rfl)
        (fun q => rfl) (fun q => rfl) (fun u q => rfl) hstage,
      handleRegenerateImage_events env s isRepEv (fun q => rfl) (fun b => rfl)
        (fun u q => rfl) hstage⟩
  · intro prompt apiKey model net hk h1 h2
    rw [getImageFromReplicate, if_neg hk, if_neg h1, if_neg h2]

/-- Concrete replicate-configured environment for the routing witness. -/
def c6env : Env :=
  { now := 2000
    settings :=
      { openaiApiKey := "sk"
        falApiKey := "fk"
        replicateApiKey := "rk"
        imageModel := "replicate-z-image-turbo"
        llmModel := "m" }
    texts := []
    tabId := none
    llmNet := .ok { content := "a scene", usage := none }
    falNet := pendingFalNet
    repNet := pendingRepNet }

/-- Fresh pipeline state used by several witnesses. -/
def freshState : PipelineState :=
  { isGenerating := false
    lastUpdateTime := 0
    lastGeneratedPrompt := ""
    storedPrompt := "" }

/-- Witness for provider_routing at a concrete replicate configuration and
an unknown replicate model identifier. -/
theorem provider_routing_witness :
    (∀ e ∈ (handleUpdateTexts c6env freshState).2, isFalEv e = false) ∧
    getImageFromReplicate "p" "rk" "replicate-other" pendingRepNet =
      ([], .error "Unknown Replicate model: replicate-other") := by
  constructor
  · exact (provider_routing.1 c6env freshState (by decide)).1
  · exact provider_routing.2.2 "p" "rk" "replicate-other" pendingRepNet
      (by decide) (by decide) (by decide)

/-- Every successful value out of the FAL polling loop carries image type
jpeg. -/
theorem falPollLoop_jpeg (net : FalNet) :
    ∀ rem idx r, (falPollLoop net rem idx).2 = .ok r → r.imageType = "jpeg" := by
  intro rem
  induction rem with
  | zero => intro idx r h; simp [falPollLoop] at h
  | succ rm ih =>
      intro idx r h
      rw [falPollLoop] at h
      split at h
      · simp at h
      · split at h
        · split at h
          · simp at h
          · simp at h
            rw [← h]; rfl
        · split at h
          · simp at h
          · exact ih (idx + 1) r h

/-- Every successful result of the FAL client carries image type jpeg. -/
theorem getImageFromFal_jpeg (prompt apiKey model : String) (net : FalNet) :
    ∀ r, (getImageFromFal prompt apiKey model net).2 = .ok r →
      r.imageType = "jpeg" := by
  intro r h
  rw [getImageFromFal] at h
  split at h
  · simp at h
  · split at h
    · simp at h
    · split at h
      · simp at h
        rw [← h]; rfl
      · split at h
        · simp at h
        · exact falPollLoop_jpeg net 20 0 r h

/-- C9 counterexample: the FAL client reports jpeg even for a result URL
whose extension is png, so the URL file-extension heuristic claimed for
every client result does not apply to the FAL client. -/
def c9FalNet : FalNet :=
  { submit := .ok { images := [{ url := "https://img/x.png", base64 := "" }], request_id := "" }
    poll := fun _ => .error "unused" }

/-- C9 counterexample at a concrete input: a FAL success whose URL contains
.png still gets imageType jpeg. -/
theorem image_type_counterexample :
    (getImageFromFal "p" "k" "fal-z-image-turbo" c9FalNet).2 =
      .ok { url := "https://img/x.png", base64 := none, imageType := "jpeg" } ∧
    strContains "https://img/x.png" ".png" = true ∧
    ("jpeg" : String) ≠ "png" := by
  refine ⟨by decide, by decide, by decide⟩

/-- C9 amended: the FAL client always resolves imageType to jpeg; only the
Replicate extractResult helper resolves it by priority inline data URI
mime type, then the URL extension heuristic (webp over png), then the
default jpeg; no response-declared base64 mime hint exists. -/
theorem image_type_amended :
    (∀ (prompt apiKey model : String) (net : FalNet) (r : ImageResult),
      (getImageFromFal prompt apiKey model net).2 = .ok r →
      r.imageType = "jpeg") ∧
    (∀ url mime payload, parseDataUri url = some (mime, payload) →
      extractResult (some (.str url)) =
        .ok { url := url, base64 := some payload, imageType := mime }) ∧
    (∀ url, parseDataUri url = none →
      extractResult (some (.str url)) =
        .ok { url := url, base64 := none, imageType := if strContains url ".webp" then "webp" else if strContains url ".png" then "png" else "jpeg" }) := by
  refine ⟨?_, ?_, ?_⟩
  · intro prompt apiKey model net r h
    exact getImageFromFal_jpeg prompt apiKey model net r h
  · intro url mime payload h
    simp [extractResult, repUrlOf, h]
  · intro url h
    simp only [extractResult, repUrlOf]
    rw [h]

/-- Witness for image_type_amended at concrete inputs. -/
theorem image_type_amended_witness :
    ({ url := "https://img/x.png", base64 := none, imageType := "jpeg" } : ImageResult).imageType = "jpeg" ∧
    extractResult (some (.str "data:image/png;base64,AB")) =
      .ok { url := "data:image/png;base64,AB", base64 := some "AB", imageType := "png" } ∧
    extractResult (some (.str "https://img/x.webp")) =
      .ok { url := "https://img/x.webp", base64 := none, imageType := "webp" } := by
  refine ⟨?_, ?_, ?_⟩
  · exact image_type_amended.1 "p" "k" "fal-z-image-turbo" c9FalNet
      { url := "https://img/x.png", base64 := none, imageType := "jpeg" }
      (by decide)
  · exact image_type_amended.2.1 "data:image/png;base64,AB" "png" "AB"
      (by decide)
  · have h := image_type_amended.2.2 "https://img/x.webp" (by decide)
    rw [h]
    decide

/-- The FAL client always issues its submit request against the resolved
model path whenever the key guard passes. -/
theorem getImageFromFal_submit_mem (prompt apiKey model : String)
    (net : FalNet) (hk : apiKey ≠ "") :
    Ev.netFalSubmit (falModelPath model) ∈
      (getImageFromFal prompt apiKey model net).1 := by
  rw [getImageFromFal, if_neg hk]
  split
  · simp
  · split
    · simp
    · split <;> simp

/-- C10: a model identifier that does not start with fal- is ignored by
the FAL client, which submits to the hardcoded default model path; since
the orchestrator routes every non-replicate identifier to the FAL client,
an unrecognized image model identifier silently generates with the default
FAL model instead of failing. -/
theorem fal_default_model_fallback :
    (∀ model : String, strStartsWith model "fal-" = false →
      falModelPath model = "fal-ai/z-image/turbo") ∧
    (∀ (env : Env) (s : PipelineState) (resp : LlmResponse),
      ¬(env.now - s.lastUpdateTime < 2000) → s.isGenerating = false →
      env.settings.openaiApiKey ≠ "" → env.settings.falApiKey ≠ "" →
      strStartsWith env.settings.imageModel "replicate" = false →
      strStartsWith env.settings.imageModel "fal-" = false →
      env.llmNet = .ok resp →
      Ev.netFalSubmit "fal-ai/z-image/turbo" ∈ (handleUpdateTexts env s).2) := by
  have hpath : ∀ model : String, strStartsWith model "fal-" = false →
      falModelPath model = "fal-ai/z-image/turbo" := by
    intro model h
    rw [falModelPath, if_neg]
    intro hc
    rw [h] at hc
    simp at hc
  refine ⟨hpath, ?_⟩
  intro env s resp hdeb hlock hoai hfal hsr hsf hllm
  rw [handleUpdateTexts, if_neg hdeb, if_neg (by simp [hlock]), if_neg hoai,
    if_neg (by rintro ⟨-, hb⟩; exact hfal hb),
    if_neg (by rintro ⟨ha, -⟩; rw [hsr] at ha; simp at ha)]
  have hgen : generatePromptFromTexts env.texts env.settings.openaiApiKey
      env.settings.llmModel s.lastGeneratedPrompt env.llmNet =
      ([Ev.llmCall s.lastGeneratedPrompt],
       .ok { prompt := jsTrim resp.content, model := env.settings.llmModel, usage := resp.usage }) := by
    rw [generatePromptFromTexts.eq_def, if_neg hoai, hllm]
  rw [hgen]
  have hst : stage2 (jsTrim resp.content) env.settings env =
      getImageFromFal (jsTrim resp.content) env.settings.falApiKey
        env.settings.imageModel env.falNet := by
    rw [stage2, if_neg (by simp [hsr])]
  have hmem := getImageFromFal_submit_mem (jsTrim resp.content)
    env.settings.falApiKey env.settings.imageModel env.falNet hfal
  rw [hpath env.settings.imageModel hsf] at hmem
  rcases hres : getImageFromFal (jsTrim resp.content) env.settings.falApiKey
      env.settings.imageModel env.falNet with ⟨evI, res⟩
  rw [hres] at hmem
  simp only at hmem
  dsimp only
  rw [hst, hres]
  cases res <;> simp [hmem]

/-- Concrete environment with an unrecognized image model identifier. -/
def c10env : Env :=
  { now := 2000
    settings :=
      { openaiApiKey := "sk"
        falApiKey := "fk"
        replicateApiKey := ""
        imageModel := "sdxl-lightning"
        llmModel := "m" }
    texts := []
    tabId := none
    llmNet := .ok { content := "a scene", usage := none }
    falNet := pendingFalNet
    repNet := pendingRepNet }

/-- Witness for fal_default_model_fallback at the unrecognized identifier
sdxl-lightning. -/
theorem fal_default_model_fallback_witness :
    falModelPath "sdxl-lightning" = "fal-ai/z-image/turbo" ∧
    Ev.netFalSubmit "fal-ai/z-image/turbo" ∈
      (handleUpdateTexts c10env freshState).2 := by
  constructor
  · exact fal_default_model_fallback.1 "sdxl-lightning" (by decide)
  · exact fal_default_model_fallback.2 c10env freshState
      { content := "a scene", usage := none } (by decide) (by decide)
      (by decide) (by decide) (by decide) (by decide) (by rfl)

/-- Loading the stored prompt does not change the lock flag. -/
theorem regenLoadPrompt_isGenerating (s : PipelineState) :
    (regenLoadPrompt s).isGenerating = s.isGenerating := by
  rw [regenLoadPrompt]
  split <;> rfl

/-- C1: in both generation entry points the isGenerating flag is set only
from a state in which no generation is in flight, and it is false again
after every run that set it (success, missing-credential early return and
thrown Stage 1 or Stage 2 error alike). -/
theorem isGenerating_lock_invariant :
    ∀ (env : Env) (s : PipelineState),
      (Ev.flagSet true ∈ (handleUpdateTexts env s).2 →
        s.isGenerating = false ∧
          (handleUpdateTexts env s).1.isGenerating = false) ∧
      (Ev.flagSet true ∈ (handleRegenerateImage env s).2 →
        s.isGenerating = false ∧
          (handleRegenerateImage env s).1.isGenerating = false) := by
  intro env s
  constructor
  · intro hmem
    rcases hrun : handleUpdateTexts env s with ⟨s1, log⟩
    rw [hrun] at hmem
    simp only at hmem ⊢
    rw [handleUpdateTexts] at hrun
    repeat' split at hrun
    all_goals cases hrun
    all_goals simp_all
  · intro hmem
    rcases hrun : handleRegenerateImage env s with ⟨s1, log⟩
    rw [hrun] at hmem
    simp only at hmem ⊢
    rw [handleRegenerateImage] at hrun
    repeat' split at hrun
    all_goals cases hrun
    all_goals simp_all [regenLoadPrompt_isGenerating]

/-- Concrete accepted fresh-generation environment for the lock witness. -/
def c1env : Env :=
  { now := 2000
    settings :=
      { openaiApiKey := "sk"
        falApiKey := "fk"
        replicateApiKey := ""
        imageModel := "fal-z-image-turbo"
        llmModel := "m" }
    texts := [{ id := "1", text := "Fire" }]
    tabId := some 7
    llmNet := .ok { content := "a scene", usage := none }
    falNet :=
      { submit := .ok { images := [{ url := "https://img/a.jpg", base64 := "" }], request_id := "" }
        poll := fun _ => .error "unused" }
    repNet := { submit := .error "unused", poll := fun _ => .error "unused" } }

/-- Witness for isGenerating_lock_invariant on an accepted concrete run. -/
theorem isGenerating_lock_invariant_witness :
    Ev.flagSet true ∈ (handleUpdateTexts c1env freshState).2 ∧
    (handleUpdateTexts c1env freshState).1.isGenerating = false :=
  ⟨by decide, ((isGenerating_lock_invariant c1env freshState).1 (by decide)).2⟩

/-- C4: an accepted, fully credentialed generation invokes the prompt
generator with previousPrompt equal to the stored lastGeneratedPrompt; on
Stage 1 success the new prompt becomes lastGeneratedPrompt, is written to
durable storage, and that write precedes every Stage 2 network event. -/
theorem narrative_continuity :
    ∀ (env : Env) (s : PipelineState) (resp : LlmResponse),
      ¬(env.now - s.lastUpdateTime < 2000) → s.isGenerating = false →
      env.settings.openaiApiKey ≠ "" →
      ¬(strStartsWith env.settings.imageModel "fal" = true ∧
        env.settings.falApiKey = "") →
      ¬(strStartsWith env.settings.imageModel "replicate" = true ∧
        env.settings.replicateApiKey = "") →
      env.llmNet = .ok resp →
      Ev.llmCall s.lastGeneratedPrompt ∈ (handleUpdateTexts env s).2 ∧
      (handleUpdateTexts env s).1.lastGeneratedPrompt = jsTrim resp.content ∧
      (handleUpdateTexts env s).1.storedPrompt = jsTrim resp.content ∧
      ∃ l1 l2, (handleUpdateTexts env s).2 =
          l1 ++ Ev.storeWrite (jsTrim resp.content) :: l2 ∧
        ∀ e ∈ l1, isImageNetEv e = false := by
  intro env s resp hdeb hlock hoai hfal hrep hllm
  rw [handleUpdateTexts, if_neg hdeb, if_neg (by simp [hlock]), if_neg hoai,
    if_neg hfal, if_neg hrep]
  have hgen : generatePromptFromTexts env.texts env.settings.openaiApiKey
      env.settings.llmModel s.lastGeneratedPrompt env.llmNet =
      ([Ev.llmCall s.lastGeneratedPrompt],
       .ok { prompt := jsTrim resp.content, model := env.settings.llmModel, usage := resp.usage }) := by
    rw [generatePromptFromTexts.eq_def, if_neg hoai, hllm]
  rw [hgen]
  dsimp only
  rcases hst : stage2 (jsTrim resp.content) env.settings env with ⟨evI, res⟩
  cases res with
  | error err =>
      refine ⟨by simp, rfl, rfl, ?_⟩
      refine ⟨[Ev.flagSet true, Ev.badge "...",
        Ev.llmCall s.lastGeneratedPrompt],
        evI ++ [Ev.badge "ERR"], by simp, ?_⟩
      intro e he
      simp at he
      rcases he with rfl | rfl | rfl <;> rfl
  | ok img =>
      refine ⟨by simp, rfl, rfl, ?_⟩
      refine ⟨[Ev.flagSet true, Ev.badge "...",
        Ev.llmCall s.lastGeneratedPrompt],
        evI ++ (match env.tabId with
          | some _ => [Ev.sendToTab img.url (jsTrim resp.content)]
          | none => []) ++ [Ev.badge ""], by simp, ?_⟩
      intro e he
      simp at he
      rcases he with rfl | rfl | rfl <;> rfl

/-- Concrete accepted environment whose previous prompt is nonempty. -/
def c4env : Env :=
  { now := 2000
    settings :=
      { openaiApiKey := "sk"
        falApiKey := "fk"
        replicateApiKey := ""
        imageModel := "fal-z-image-turbo"
        llmModel := "m" }
    texts := [{ id := "1", text := "Fire" }]
    tabId := some 7
    llmNet := .ok { content := "Steam rises.", usage := none }
    falNet :=
      { submit := .ok { images := [{ url := "https://img/a.jpg", base64 := "" }], request_id := "" }
        poll := fun _ => .error "unused" }
    repNet := { submit := .error "unused", poll := fun _ => .error "unused" } }

def c4state : PipelineState :=
  { isGenerating := false
    lastUpdateTime := 0
    lastGeneratedPrompt := "old scene"
    storedPrompt := "old scene" }

/-- Witness for narrative_continuity on a concrete accepted run. -/
theorem narrative_continuity_witness :
    Ev.llmCall "old scene" ∈ (handleUpdateTexts c4env c4state).2 ∧
    (handleUpdateTexts c4env c4state).1.lastGeneratedPrompt = "Steam rises." ∧
    ∃ l1 l2, (handleUpdateTexts c4env c4state).2 =
        l1 ++ Ev.storeWrite "Steam rises." :: l2 ∧
      ∀ e ∈ l1, isImageNetEv e = false := by
  have h := narrative_continuity c4env c4state
    { content := "Steam rises.", usage := none } (by decide) (by decide)
    (by decide) (by decide) (by decide) (by rfl)
  exact ⟨h.1, h.2.1, h.2.2.2⟩

/-- C8: when Stage 1 throws in an accepted credentialed run, the routine
ends with the lock released, the in-memory and stored prompts unchanged,
and no durable prompt write in the log. -/
theorem lock_release_on_stage1_failure :
    ∀ (env : Env) (s : PipelineState) (err : String),
      ¬(env.now - s.lastUpdateTime < 2000) → s.isGenerating = false →
      env.settings.openaiApiKey ≠ "" →
      ¬(strStartsWith env.settings.imageModel "fal" = true ∧
        env.settings.falApiKey = "") →
      ¬(strStartsWith env.settings.imageModel "replicate" = true ∧
        env.settings.replicateApiKey = "") →
      env.llmNet = .error err →
      (handleUpdateTexts env s).1.isGenerating = false ∧
      (handleUpdateTexts env s).1.lastGeneratedPrompt =
        s.lastGeneratedPrompt ∧
      (handleUpdateTexts env s).1.storedPrompt = s.storedPrompt ∧
      ∀ p, Ev.storeWrite p ∉ (handleUpdateTexts env s).2 := by
  intro env s err hdeb hlock hoai hfal hrep hllm
  rw [handleUpdateTexts, if_neg hdeb, if_neg (by simp [hlock]), if_neg hoai,
    if_neg hfal, if_neg hrep]
  have hgen : generatePromptFromTexts env.texts env.settings.openaiApiKey
      env.settings.llmModel s.lastGeneratedPrompt env.llmNet =
      ([Ev.llmCall s.lastGeneratedPrompt], .error err) := by
    rw [generatePromptFromTexts.eq_def, if_neg hoai, hllm]
  rw [hgen]
  refine ⟨rfl, rfl, rfl, ?_⟩
  intro p
  simp

/-- Concrete accepted environment whose Stage 1 call fails. -/
def c8env : Env :=
  { now := 2000
    settings :=
      { openaiApiKey := "sk"
        falApiKey := "fk"
        replicateApiKey := ""
        imageModel := "fal-z-image-turbo"
        llmModel := "m" }
    texts := []
    tabId := none
    llmNet := .error "upstream 500"
    falNet := { submit := .error "unused", poll := fun _ => .error "unused" }
    repNet := { submit := .error "unused", poll := fun _ => .error "unused" } }

def c8state : PipelineState :=
  { isGenerating := false
    lastUpdateTime := 0
    lastGeneratedPrompt := "old scene"
    storedPrompt := "old scene" }

/-- Witness for lock_release_on_stage1_failure on a concrete failing run. -/
theorem lock_release_on_stage1_failure_witness :
    (handleUpdateTexts c8env c8state).1.isGenerating = false ∧
    (handleUpdateTexts c8env c8state).1.lastGeneratedPrompt = "old scene" ∧
    ∀ p, Ev.storeWrite p ∉ (handleUpdateTexts c8env c8state).2 := by
  have h := lock_release_on_stage1_failure c8env c8state "upstream 500"
    (by decide) (by decide) (by decide) (by decide) (by decide) (by rfl)
  exact ⟨h.1, by rw [h.2.1]; rfl, h.2.2.2⟩

/-- Loading the stored prompt is the identity when the in-memory prompt is
already nonempty. -/
theorem regenLoadPrompt_of_nonempty (s : PipelineState)
    (h : s.lastGeneratedPrompt ≠ "") : regenLoadPrompt s = s := by
  rw [regenLoadPrompt, if_neg]
  rintro ⟨h1, -⟩
  exact h h1

/-- Concrete regeneration environment with a missing FAL credential. -/
def c3env : Env :=
  { now := 2000
    settings :=
      { openaiApiKey := "sk"
        falApiKey := ""
        replicateApiKey := ""
        imageModel := "fal-z-image-turbo"
        llmModel := "m" }
    texts := []
    tabId := none
    llmNet := .error "unused"
    falNet := { submit := .error "unused", poll := fun _ => .error "unused" }
    repNet := { submit := .error "unused", poll := fun _ => .error "unused" } }

def c3state : PipelineState :=
  { isGenerating := false
    lastUpdateTime := 0
    lastGeneratedPrompt := "a scene"
    storedPrompt := "a scene" }

/-- C3 counterexample: a regeneration run with an empty FAL key issues no
network call and releases the lock, but it terminates with the generic
error badge, not the missing-key badge the claim requires for both entry
points. -/
theorem credential_gating_counterexample :
    Ev.badge "KEY" ∉ (handleRegenerateImage c3env c3state).2 ∧
    Ev.badge "ERR" ∈ (handleRegenerateImage c3env c3state).2 ∧
    (∀ e ∈ (handleRegenerateImage c3env c3state).2, isNetEv e = false) ∧
    (handleRegenerateImage c3env c3state).1.isGenerating = false := by
  decide

/-- C3 amended: with an empty relevant credential no Stage 1 or Stage 2
network call is issued and the lock is released in both entry points; the
fresh-generation entry point signals the missing-key badge, while the
regeneration entry point (which has no credential guard) surfaces the
client-side key check as the generic error badge; the prompt generator
itself rejects an empty key before any network call. -/
theorem credential_gating_amended :
    (∀ (env : Env) (s : PipelineState),
      ¬(env.now - s.lastUpdateTime < 2000) → s.isGenerating = false →
      (env.settings.openaiApiKey = "" ∨
        (strStartsWith env.settings.imageModel "fal" = true ∧
          env.settings.falApiKey = "") ∨
        (strStartsWith env.settings.imageModel "replicate" = true ∧
          env.settings.replicateApiKey = "")) →
      (handleUpdateTexts env s).1.isGenerating = false ∧
      Ev.badge "KEY" ∈ (handleUpdateTexts env s).2 ∧
      ∀ e ∈ (handleUpdateTexts env s).2, isNetEv e = false) ∧
    (∀ (env : Env) (s : PipelineState),
      s.lastGeneratedPrompt ≠ "" → s.isGenerating = false →
      ((strStartsWith env.settings.imageModel "replicate" = true ∧
          env.settings.replicateApiKey = "") ∨
        (strStartsWith env.settings.imageModel "replicate" = false ∧
          env.settings.falApiKey = "")) →
      (handleRegenerateImage env s).1.isGenerating = false ∧
      Ev.badge "ERR" ∈ (handleRegenerateImage env s).2 ∧
      ∀ e ∈ (handleRegenerateImage env s).2, isNetEv e = false) ∧
    (∀ (texts : List TextItem) (model prev : String)
        (net : Except String LlmResponse),
      generatePromptFromTexts texts "" model prev net =
        ([], .error "API Key is missing.")) := by
  refine ⟨?_, ?_, ?_⟩
  · intro env s hdeb hlock hcred
    rw [handleUpdateTexts, if_neg hdeb, if_neg (by simp [hlock])]
    by_cases hoai : env.settings.openaiApiKey = ""
    · rw [if_pos hoai]
      refine ⟨rfl, by simp, ?_⟩
      intro e he
      simp at he
      rcases he with rfl | rfl | rfl <;> rfl
    · rw [if_neg hoai]
      by_cases hfal : strStartsWith env.settings.imageModel "fal" = true ∧
        env.settings.falApiKey = ""
      · rw [if_pos hfal]
        refine ⟨rfl, by simp, ?_⟩
        intro e he
        simp at he
        rcases he with rfl | rfl | rfl <;> rfl
      · rw [if_neg hfal]
        by_cases hrep : strStartsWith env.settings.imageModel "replicate"
            = true ∧ env.settings.replicateApiKey = ""
        · rw [if_pos hrep]
          refine ⟨rfl, by simp, ?_⟩
          intro e he
          simp at he
          rcases he with rfl | rfl | rfl <;> rfl
        · rcases hcred with h | h | h
          · exact absurd h hoai
          · exact absurd h hfal
          · exact absurd h hrep
  · intro env s hp hlock hcred
    have hload : regenLoadPrompt s = s := regenLoadPrompt_of_nonempty s hp
    rw [handleRegenerateImage, hload, if_neg hp, if_neg (by simp [hlock])]
    rcases hcred with ⟨hsr, hk⟩ | ⟨hsr, hk⟩
    · have hst : stage2 s.lastGeneratedPrompt env.settings env =
          ([], .error "Replicate API Key is missing.") := by
        rw [stage2, if_pos hsr, getImageFromReplicate, if_pos hk]
      rw [hst]
      refine ⟨rfl, by simp, ?_⟩
      intro e he
      simp at he
      rcases he with rfl | rfl | rfl <;> rfl
    · have hst : stage2 s.lastGeneratedPrompt env.settings env =
          ([], .error "FAL API Key is missing.") := by
        rw [stage2, if_neg (by simp [hsr]), getImageFromFal, if_pos hk]
      rw [hst]
      refine ⟨rfl, by simp, ?_⟩
      intro e he
      simp at he
      rcases he with rfl | rfl | rfl <;> rfl
  · intro texts model prev net
    rw [generatePromptFromTexts.eq_def, if_pos rfl]

/-- Concrete fresh-generation environment with a missing prompt key. -/
def c3aenv : Env :=
  { now := 2000
    settings :=
      { openaiApiKey := ""
        falApiKey := "fk"
        replicateApiKey := ""
        imageModel := "fal-z-image-turbo"
        llmModel := "m" }
    texts := []
    tabId := none
    llmNet := .error "unused"
    falNet := { submit := .error "unused", poll := fun _ => .error "unused" }
    repNet := { submit := .error "unused", poll := fun _ => .error "unused" } }

/-- Witness for credential_gating_amended at concrete missing-credential
runs for both entry points and for the prompt generator. -/
theorem credential_gating_amended_witness :
    ((handleUpdateTexts c3aenv freshState).1.isGenerating = false ∧
      Ev.badge "KEY" ∈ (handleUpdateTexts c3aenv freshState).2) ∧
    ((handleRegenerateImage c3env c3state).1.isGenerating = false ∧
      Ev.badge "ERR" ∈ (handleRegenerateImage c3env c3state).2) ∧
    generatePromptFromTexts [] "" "m" "" (.error "x") =
      ([], .error "API Key is missing.") := by
  have h1 := credential_gating_amended.1 c3aenv freshState (by decide)
    (by decide) (Or.inl (by rfl))
  have h2 := credential_gating_amended.2.1 c3env c3state (by decide)
    (by decide) (Or.inr (by decide))
  have h3 := credential_gating_amended.2.2 [] "m" "" (.error "x")
  exact ⟨⟨h1.1, h1.2.1⟩, ⟨h2.1, h2.2.1⟩, h3⟩

/-- A trigger run in which every step is rejected leaves lastUpdateTime
unchanged. -/
theorem runLast_of_all_false (ts : List Trig) :
    ∀ l, (∀ b ∈ runTrigs l ts, b = false) → runLast l ts = l := by
  induction ts with
  | nil => intro l _; rfl
  | cons t ts ih =>
      intro l h
      have ha : acceptStep l t = false := h _ (by rw [runTrigs]; simp)
      rw [runLast, if_neg (by simp [ha])]
      rw [ih l]
      intro b hb
      exact h b (by rw [runTrigs]; simp [ha, hb])

/-- Concrete accepted-then-debounced environments: same settings, varying
clock readings. -/
def c2envAt (n : Int) : Env :=
  { now := n
    settings :=
      { openaiApiKey := "sk"
        falApiKey := "fk"
        replicateApiKey := ""
        imageModel := "fal-z-image-turbo"
        llmModel := "m" }
    texts := []
    tabId := none
    llmNet := .ok { content := "sc", usage := none }
    falNet :=
      { submit := .ok { images := [{ url := "https://img/a.jpg", base64 := "" }], request_id := "" }
        poll := fun _ => .error "unused" }
    repNet := { submit := .error "unused", poll := fun _ => .error "unused" } }

/-- C2 counterexample: triggers at 2000, 3000 and 3500 ms from a fresh
state.  The pair (3000, 3500) is less than 2000 ms apart with no
intervening accepted trigger, yet neither member is accepted (both fall in
the debounce window of the accepted trigger at 2000), refuting the claimed
exactly-one outcome. -/
theorem debounce_counterexample :
    Ev.flagSet true ∈ (handleUpdateTexts (c2envAt 2000) freshState).2 ∧
    Ev.flagSet true ∉
      (handleUpdateTexts (c2envAt 3000)
        (handleUpdateTexts (c2envAt 2000) freshState).1).2 ∧
    Ev.flagSet true ∉
      (handleUpdateTexts (c2envAt 3500)
        (handleUpdateTexts (c2envAt 3000)
          (handleUpdateTexts (c2envAt 2000) freshState).1).1).2 ∧
    (3500 : Int) - 3000 < 2000 := by
  decide

/-- C2 amended: the debounce guard silently rejects a trigger within
2000 ms of lastUpdateTime before the lock is consulted; a trigger is
accepted exactly when it is outside the debounce window and no generation
is in flight; lastUpdateTime is updated exactly on acceptance; and for any
pair of triggers less than 2000 ms apart with no intervening accepted
trigger, at most one member of the pair is accepted. -/
theorem debounce_at_most_one :
    (∀ (env : Env) (s : PipelineState),
      env.now - s.lastUpdateTime < 2000 → handleUpdateTexts env s = (s, [])) ∧
    (∀ (env : Env) (s : PipelineState),
      Ev.flagSet true ∈ (handleUpdateTexts env s).2 ↔
        (¬(env.now - s.lastUpdateTime < 2000) ∧ s.isGenerating = false)) ∧
    (∀ (env : Env) (s : PipelineState),
      (handleUpdateTexts env s).1.lastUpdateTime =
        if ¬(env.now - s.lastUpdateTime < 2000) ∧ s.isGenerating = false
        then env.now else s.lastUpdateTime) ∧
    (∀ (last : Int) (t1 t2 : Trig) (mid : List Trig),
      t2.now - t1.now < 2000 →
      (∀ b ∈ runTrigs (if acceptStep last t1 then t1.now else last) mid,
        b = false) →
      ¬(acceptStep last t1 = true ∧
        acceptStep
          (runLast (if acceptStep last t1 then t1.now else last) mid) t2
          = true)) := by
  refine ⟨?_, ?_, ?_, ?_⟩
  · intro env s h
    rw [handleUpdateTexts, if_pos h]
  · intro env s
    constructor
    · intro h
      by_cases hdeb : env.now - s.lastUpdateTime < 2000
      · rw [handleUpdateTexts, if_pos hdeb] at h
        simp at h
      · by_cases hlock : s.isGenerating = true
        · rw [handleUpdateTexts, if_neg hdeb, if_pos hlock] at h
          simp at h
        · exact ⟨hdeb, by simpa using hlock⟩
    · rintro ⟨hdeb, hlock⟩
      rw [handleUpdateTexts, if_neg hdeb, if_neg (by simp [hlock])]
      repeat' split
      all_goals simp
  · intro env s
    by_cases hdeb : env.now - s.lastUpdateTime < 2000
    · rw [handleUpdateTexts, if_pos hdeb, if_neg (by simp [hdeb])]
    · by_cases hlock : s.isGenerating = true
      · rw [handleUpdateTexts, if_neg hdeb, if_pos hlock,
          if_neg (by simp [hlock])]
      · rw [handleUpdateTexts, if_neg hdeb, if_neg hlock,
          if_pos (show ¬(env.now - s.lastUpdateTime < 2000) ∧
            s.isGenerating = false from ⟨hdeb, by simpa using hlock⟩)]
        repeat' split
        all_goals rfl
  · intro last t1 t2 mid hlt hmid
    rintro ⟨h1, h2⟩
    rw [h1] at hmid h2
    simp only [if_pos] at hmid h2
    rw [runLast_of_all_false mid t1.now (by simpa using hmid)] at h2
    simp [acceptStep, hlt] at h2

/-- Witness for debounce_at_most_one: a concrete debounced silent no-op
and a concrete pair with an accepted first member and a rejected second. -/
theorem debounce_at_most_one_witness :
    handleUpdateTexts (c2envAt 1000) freshState = (freshState, []) ∧
    ¬(acceptStep 0 ⟨2000, false⟩ = true ∧
      acceptStep (runLast 2000 []) ⟨3000, false⟩ = true) := by
  constructor
  · exact debounce_at_most_one.1 (c2envAt 1000) freshState (by decide)
  · have h := debounce_at_most_one.2.2.2 0 ⟨2000, false⟩ ⟨3000, false⟩ []
      (by decide) (by decide)
    simpa using h

/-! Decimal index keys produced by spreading an array are never sensitive:
they consist of digit characters only, and every pattern of the key filter
contains a letter. -/

def digitChars : List Char := ['0', '1', '2', '3', '4', '5', '6', '7', '8', '9']

theorem digitChar_mem (d : Nat) (h : d < 10) : Nat.digitChar d ∈ digitChars := by
  interval_cases d <;> decide

theorem toDigitsCore_mem : ∀ (fuel n : Nat) (acc : List Char),
    (∀ c ∈ acc, c ∈ digitChars) →
    ∀ c ∈ Nat.toDigitsCore 10 fuel n acc, c ∈ digitChars := by
  intro fuel
  induction fuel with
  | zero =>
      intro n acc hacc c hc
      rw [Nat.toDigitsCore] at hc
      exact hacc c hc
  | succ f ih =>
      intro n acc hacc c hc
      simp only [Nat.toDigitsCore] at hc
      have hd : Nat.digitChar (n % 10) ∈ digitChars :=
        digitChar_mem _ (Nat.mod_lt _ (by decide))
      have hacc2 : ∀ x ∈ Nat.digitChar (n % 10) :: acc, x ∈ digitChars := by
        intro x hx
        rcases List.mem_cons.mp hx with rfl | h2
        · exact hd
        · exact hacc x h2
      split at hc
      · exact hacc2 c hc
      · exact ih _ _ hacc2 c hc

theorem natRepr_mem (n : Nat) : ∀ c ∈ (Nat.repr n).toList, c ∈ digitChars := by
  have h : (Nat.repr n).toList = Nat.toDigitsCore 10 (n + 1) n [] := rfl
  rw [h]
  exact toDigitsCore_mem (n + 1) n [] (by simp)

theorem toLower_digit (c : Char) (h : c ∈ digitChars) : Char.toLower c = c := by
  fin_cases h <;> decide

theorem listIsInit_subset : ∀ (pat l : List Char),
    listIsInit pat l = true → ∀ c ∈ pat, c ∈ l := by
  intro pat
  induction pat with
  | nil => simp
  | cons a as ih =>
      intro l h c hc
      cases l with
      | nil => simp [listIsInit] at h
      | cons b bs =>
          simp only [listIsInit, Bool.and_eq_true, decide_eq_true_eq] at h
          obtain ⟨rfl, h2⟩ := h
          rcases List.mem_cons.mp hc with rfl | hc2
          · exact List.mem_cons_self _ _
          · exact List.mem_cons_of_mem _ (ih bs h2 c hc2)

theorem listContainsSub_subset : ∀ (l pat : List Char),
    listContainsSub pat l = true → ∀ c ∈ pat, c ∈ l := by
  intro l
  induction l with
  | nil =>
      intro pat h c hc
      cases pat with
      | nil => simp at hc
      | cons p ps => simp [listContainsSub, List.isEmpty] at h
  | cons b bs ih =>
      intro pat h c hc
      rw [listContainsSub, Bool.or_eq_true] at h
      rcases h with h1 | h2
      · exact listIsInit_subset pat _ h1 c hc
      · exact List.mem_cons_of_mem _ (ih pat h2 c hc)

/-- A key made of decimal digits only matches none of the sensitive
patterns. -/
theorem sensitiveKey_of_digits (k : String)
    (h : ∀ c ∈ k.toList, c ∈ digitChars) : sensitiveKey k = false := by
  have hl : (strToLower k).toList = k.toList.map Char.toLower := rfl
  have gen : ∀ (p : String) (c0 : Char), c0 ∈ p.toList → c0 ∉ digitChars →
      strContains (strToLower k) p = false := by
    intro p c0 hc0 hnd
    by_contra hcon
    have h1 : strContains (strToLower k) p = true := by
      simpa using hcon
    rw [strContains, hl] at h1
    have h2 : c0 ∈ k.toList.map Char.toLower :=
      listContainsSub_subset _ _ h1 c0 hc0
    obtain ⟨x, hx, hxe⟩ := List.mem_map.mp h2
    have hxd := h x hx
    rw [toLower_digit x hxd] at hxe
    rw [hxe] at hxd
    exact hnd hxd
  rw [sensitiveKey,
    gen "apikey" 'a' (by decide) (by decide),
    gen "api_key" 'a' (by decide) (by decide),
    gen "secret" 's' (by decide) (by decide),
    gen "token" 't' (by decide) (by decide),
    gen "password" 'p' (by decide) (by decide)]
  rfl

/-- Spread index keys are left alone by the key filter. -/
theorem redact_arrFields (elems : List JsVal) :
    redactFields (arrFields elems) = arrFields elems := by
  rw [redactFields, arrFields, List.map_map]
  apply List.map_congr_left
  intro p hp
  have hk : sensitiveKey (Nat.repr p.1) = false :=
    sensitiveKey_of_digits _ (natRepr_mem p.1)
  simp [hk]

/-- C7 counterexample: a field named key (which the claim says must be
redacted) passes through unchanged, and a sensitive field nested one level
deep (which the claim says is redacted at any depth) also passes through
unchanged, because the filter is shallow and its pattern set lacks the
bare key pattern. -/
theorem sanitizer_counterexample :
    sanitizeArg (JsVal.obj [("key", JsVal.str "hunter2")]) =
      JsVal.obj [("key", JsVal.str "hunter2")] ∧
    sanitizeArg (JsVal.obj [("auth", JsVal.obj [("secret", JsVal.str "s")])]) =
      JsVal.obj [("auth", JsVal.obj [("secret", JsVal.str "s")])] ∧
    sensitiveKey "secret" = true := by
  refine ⟨?_, ?_, by rfl⟩
  · have h : sensitiveKey "key" = false := by rfl
    simp [sanitizeArg, redactFields, h]
  · have h : sensitiveKey "auth" = false := by rfl
    simp [sanitizeArg, redactFields, h]

/-- C7 amended: the sanitizer filters only the top-level keys of each
object argument, replacing a value with the redaction marker exactly when
the lowercased key contains one of apikey, api_key, secret, token,
password (not the bare key), leaving every other top-level field and all
nested content unaltered; primitives and null pass through; an array is
spread into an object keyed by decimal indices with its elements
unaltered. -/
theorem sanitizer_amended :
    (∀ (fields : List (String × JsVal)) (k : String) (v : JsVal),
      (k, v) ∈ fields →
      (sensitiveKey k = true →
        (k, JsVal.str "[REDACTED]") ∈
          fieldsOf (sanitizeArg (JsVal.obj fields))) ∧
      (sensitiveKey k = false →
        (k, v) ∈ fieldsOf (sanitizeArg (JsVal.obj fields)))) ∧
    (∀ s, sanitizeArg (JsVal.str s) = JsVal.str s) ∧
    (∀ n, sanitizeArg (JsVal.num n) = JsVal.num n) ∧
    (∀ b, sanitizeArg (JsVal.bool b) = JsVal.bool b) ∧
    (sanitizeArg JsVal.null = JsVal.null) ∧
    (∀ elems, sanitizeArg (JsVal.arr elems) = JsVal.obj (arrFields elems)) := by
  refine ⟨?_, fun s => rfl, fun n => rfl, fun b => rfl, rfl, ?_⟩
  · intro fields k v hmem
    constructor
    · intro hs
      have h1 := List.mem_map_of_mem
        (fun kv => if sensitiveKey kv.1 then (kv.1, JsVal.str "[REDACTED]")
          else kv) hmem
      simpa [sanitizeArg, redactFields, fieldsOf, hs] using h1
    · intro hs
      have h1 := List.mem_map_of_mem
        (fun kv => if sensitiveKey kv.1 then (kv.1, JsVal.str "[REDACTED]")
          else kv) hmem
      simpa [sanitizeArg, redactFields, fieldsOf, hs] using h1
  · intro elems
    rw [sanitizeArg, redact_arrFields]

/-- Witness for sanitizer_amended on a concrete object with one sensitive
and one plain field. -/
theorem sanitizer_amended_witness :
    ("falApiKey", JsVal.str "[REDACTED]") ∈
      fieldsOf (sanitizeArg (JsVal.obj
        [("falApiKey", JsVal.str "fk"), ("imageModel", JsVal.str "m")])) ∧
    ("imageModel", JsVal.str "m") ∈
      fieldsOf (sanitizeArg (JsVal.obj
        [("falApiKey", JsVal.str "fk"), ("imageModel", JsVal.str "m")])) := by
  constructor
  · exact (sanitizer_amended.1
      [("falApiKey", JsVal.str "fk"), ("imageModel", JsVal.str "m")]
      "falApiKey" (JsVal.str "fk") (by simp)).1 (by rfl)
  · exact (sanitizer_amended.1
      [("falApiKey", JsVal.str "fk"), ("imageModel", JsVal.str "m")]
      "imageModel" (JsVal.str "m") (by simp)).2 (by rfl)

end InfiniteFun
